import Mathlib

/-!
Verification of `prow/spyglass/lenses/lenses.go`: a shallow embedding of the
chunked tail-line extraction (`LastNLines` / `LastNLinesChunked`) and of the
lens registry (`RegisterLens` / `GetLens` / `UnregisterLens`), together with
theorems settling the specification's claims about them.

Bytes are modelled as `Nat` (newline is 10, NUL is 0, carriage return is 13);
Go `int64` values are modelled as `Int` (no claim exercises overflow);
Go error values are modelled by the inductive `GoError`, whose constructors
stand for the distinct error values the source creates, with `fmt.Errorf`
wrapping modelled structurally by `GoError.wrapped`.
-/

namespace Spyglass

/-- Go error values appearing in the source. `eof` is `io.EOF`;
`gzipOffsetRead` is `ErrGzipOffsetRead`; `invalidLensName` is
`ErrInvalidLensName`; `fileTooLarge` is `ErrFileTooLarge`;
`contextUnsupported` is `ErrContextUnsupported`; `duplicateViewer`,
`emptyTitle` and `negativePriority` are the three registration errors;
`wrapped ctx e` is `fmt.Errorf(ctx ++ ": %v", e)`; `ioError` stands for an
arbitrary I/O failure produced by an artifact implementation. -/
inductive GoError where
  | eof
  | gzipOffsetRead
  | invalidLensName
  | fileTooLarge
  | contextUnsupported
  | duplicateViewer (name : String)
  | emptyTitle
  | negativePriority
  | wrapped (ctx : String) (inner : GoError)
  | ioError (msg : String)
deriving DecidableEq, Repr

deriving instance DecidableEq for Except

/-- Result of one `ReadAt(p, off)` call: the buffer contents after the call
(`buf`, of the requested length), the reported byte count `numRead`, and the
returned error, if any. -/
structure ReadAtResult where
  buf : List Nat
  numRead : Nat
  err : Option GoError
deriving DecidableEq, Repr

/-- The `Artifact` interface, restricted to the two operations
`LastNLinesChunked` uses: `Size()` and `ReadAt(p, off)`. `readAt` takes the
length of the (zeroed) buffer passed in and the offset. -/
structure Artifact where
  size : Except GoError Int
  readAt : Nat → Int → ReadAtResult

/-- The local variables of `LastNLinesChunked`'s read loop. -/
structure LoopState where
  toRead : Int
  chunks : Int
  contents : List Nat
  linesInContents : Int
  offset : Int
  lastOffset : Int
  lastRead : Int
deriving DecidableEq, Repr

/-- `bytes.Trim(bs, "\x00")`: remove leading and trailing NUL bytes. -/
def trimNul (bs : List Nat) : List Nat :=
  ((bs.dropWhile (fun b => b == 0)).reverse.dropWhile (fun b => b == 0)).reverse

/-- The offset/length update at the top of each loop iteration:
`offset = lastOffset - lastRead; if offset < 0 { toRead = offset + chunkSize + 1; offset = 0 }`.
Returns the pair (bytes to read, read offset). -/
def readParams (chunkSize : Int) (s : LoopState) : Int × Int :=
  let offset0 := s.lastOffset - s.lastRead
  (if offset0 < 0 then offset0 + chunkSize + 1 else s.toRead,
   if offset0 < 0 then 0 else offset0)

/-- The accumulation tail of a loop iteration after a successful (or EOF)
read: trim NULs, count newlines, prepend the chunk to `contents`, record
`lastRead`/`lastOffset`, bump `chunks`. -/
def advance (s : LoopState) (toRead offset : Int) (res : ReadAtResult) : LoopState :=
  let bytesRead := trimNul res.buf
  { toRead := toRead
    chunks := s.chunks + 1
    contents := bytesRead ++ s.contents
    linesInContents := s.linesInContents + (bytesRead.count 10 : Int)
    offset := offset
    lastOffset := offset
    lastRead := (res.numRead : Int) }

/-- One iteration of the read loop of `LastNLinesChunked`: compute the read
window, call `ReadAt`, abort on any error other than `io.EOF`, otherwise
accumulate. Also returns the (buffer length, offset) of the `ReadAt` call. -/
def loopStep (a : Artifact) (chunkSize : Int) (s : LoopState) :
    (Nat × Int) × Except GoError LoopState :=
  let p := readParams chunkSize s
  let res := a.readAt p.1.toNat p.2
  match res.err with
  | some e =>
      if e = .eof then ((p.1.toNat, p.2), .ok (advance s p.1 p.2 res))
      else ((p.1.toNat, p.2), .error (.wrapped "error reading artifact" e))
  | none => ((p.1.toNat, p.2), .ok (advance s p.1 p.2 res))

/-- The loop `for linesInContents < n && offset != 0 { ... }` of
`LastNLinesChunked`, with explicit fuel (the Go loop has no intrinsic
termination guarantee for adversarial artifacts; `none` means the fuel ran
out). Besides the final `contents` (or the aborting error) it returns the
list of `ReadAt` calls performed, in order. -/
def lastNLinesLoop (a : Artifact) (n chunkSize : Int) :
    Nat → LoopState → Option (Except GoError (List Nat)) × List (Nat × Int)
  | 0, _ => (none, [])
  | fuel + 1, s =>
    if s.linesInContents < n ∧ s.offset ≠ 0 then
      match loopStep a chunkSize s with
      | (rd, .error e) => (some (.error e), [rd])
      | (rd, .ok s2) =>
        ((lastNLinesLoop a n chunkSize fuel s2).1,
         rd :: (lastNLinesLoop a n chunkSize fuel s2).2)
    else (some (.ok s.contents), [])

/-- `dropCR` from `bufio`: drop one trailing carriage return. -/
def dropCR (bs : List Nat) : List Nat :=
  if bs.getLast? = some 13 then bs.dropLast else bs

/-- `bufio.Scanner` with `bufio.ScanLines` over a byte slice: split on
newline bytes, strip one trailing carriage return from each line, and do not
emit a final empty token when the input ends with a newline. `acc` is the
current (reversed) partial line. -/
def scanLinesAux : List Nat → List Nat → List (List Nat)
  | [], acc => if acc.isEmpty then [] else [dropCR acc.reverse]
  | b :: bs, acc =>
    if b = 10 then dropCR acc.reverse :: scanLinesAux bs []
    else scanLinesAux bs (b :: acc)

/-- The line-splitting pass at the end of `LastNLinesChunked`. -/
def scanLines (bs : List Nat) : List (List Nat) := scanLinesAux bs []

/-- The final truncation of `LastNLinesChunked`:
`l := int64(len(lines)); if l < n { return lines }; return lines[l-n:]`. -/
def lastLines (lines : List (List Nat)) (n : Int) : List (List Nat) :=
  if (lines.length : Int) < n then lines
  else lines.drop ((lines.length : Int) - n).toNat

/-- The loop variables as set up before the first iteration of
`LastNLinesChunked` (with `chunks = 1`, so the initial offset is
`artifactSize - 1*chunkSize`). -/
def initState (artifactSize chunkSize : Int) : LoopState :=
  { toRead := chunkSize + 1
    chunks := 1
    contents := []
    linesInContents := 0
    offset := artifactSize - 1 * chunkSize
    lastOffset := artifactSize - 1 * chunkSize
    lastRead := 0 }

/-- Instrumented outcome of a `LastNLinesChunked` call: the returned value
(`none` when the fuel ran out), the `ReadAt` calls performed (buffer length
and offset, in order), and the number of `Size()` queries performed. -/
structure RunResult where
  result : Option (Except GoError (List (List Nat)))
  reads : List (Nat × Int)
  sizeCalls : Nat

/-- Body of `LastNLinesChunked` after a successful `Size()` query returning
`artifactSize`: run the read loop, then split `contents` into lines and keep
the last `n`. The fuel `artifactSize.toNat + 2` exceeds the iteration count
for any artifact backed by actual content of that size (offsets decrease by
at least one per iteration until the loop stops at offset 0). -/
def runWithSize (a : Artifact) (n chunkSize artifactSize : Int) : RunResult :=
  let pr := lastNLinesLoop a n chunkSize (artifactSize.toNat + 2) (initState artifactSize chunkSize)
  match pr.1 with
  | none => ⟨none, pr.2, 1⟩
  | some (.error e) => ⟨some (.error e), pr.2, 1⟩
  | some (.ok contents) => ⟨some (.ok (lastLines (scanLines contents) n)), pr.2, 1⟩

/-- `LastNLinesChunked(a, n, chunkSize)`, instrumented with the performed
`ReadAt` and `Size` calls. A `Size()` failure aborts immediately with the
error wrapped as "error getting artifact size". -/
def LastNLinesChunkedRun (a : Artifact) (n chunkSize : Int) : RunResult :=
  match a.size with
  | .error e => ⟨some (.error (.wrapped "error getting artifact size" e)), [], 1⟩
  | .ok artifactSize => runWithSize a n chunkSize artifactSize

/-- `LastNLinesChunked(a, n, chunkSize)`: just the returned value. -/
def LastNLinesChunked (a : Artifact) (n chunkSize : Int) :
    Option (Except GoError (List (List Nat))) :=
  (LastNLinesChunkedRun a n chunkSize).result

/-- `LastNLines(a, n) = LastNLinesChunked(a, n, 300*n+1)`. -/
def LastNLines (a : Artifact) (n : Int) : Option (Except GoError (List (List Nat))) :=
  LastNLinesChunked a n (300 * n + 1)

/-- `ReadAt` of an artifact backed by an in-memory byte sequence, with the
standard `bytes.Reader.ReadAt` semantics: fill the buffer from `off`, report
how many bytes were available, and return `io.EOF` on a short read. Bytes of
the buffer beyond the filled prefix keep their zero value. -/
def contentReadAt (content : List Nat) (bufLen : Nat) (off : Int) : ReadAtResult :=
  if off < 0 then
    ⟨List.replicate bufLen 0, 0, some (.ioError "bytes.Reader.ReadAt: negative offset")⟩
  else
    let data := (content.drop off.toNat).take bufLen
    ⟨data ++ List.replicate (bufLen - data.length) 0, data.length,
     if data.length < bufLen then some .eof else none⟩

/-- An artifact backed by an in-memory byte sequence. -/
def contentArtifact (content : List Nat) : Artifact :=
  ⟨.ok (content.length : Int), contentReadAt content⟩

/-- An artifact of reported size `sz` whose every `ReadAt` fails with
`ErrGzipOffsetRead` (the unsupported-offset-read condition). -/
def gzipArtifact (sz : Int) : Artifact :=
  ⟨.ok sz, fun bufLen _ => ⟨List.replicate bufLen 0, 0, some .gzipOffsetRead⟩⟩

/-- An artifact of reported size 5 whose every `ReadAt` fails with a hard
(non-EOF) I/O error. -/
def badArtifact : Artifact :=
  ⟨.ok 5, fun bufLen _ => ⟨List.replicate bufLen 0, 0, some (.ioError "disk failure")⟩⟩

/-- Reference definition, following the spec's words: split the content on
newline bytes, a trailing unterminated segment counting as a line. `acc` is
the current (reversed) partial line. -/
def splitOnNewline : List Nat → List Nat → List (List Nat)
  | [], acc => if acc.isEmpty then [] else [acc.reverse]
  | b :: bs, acc =>
    if b = 10 then acc.reverse :: splitOnNewline bs []
    else splitOnNewline bs (b :: acc)

/-- Reference definition, following the spec's words: all lines of the
content, from a full linear scan. -/
def fullScanLines (bs : List Nat) : List (List Nat) := splitOnNewline bs []

/-- Reference definition, following the spec's words: the full list of lines
truncated to keep only the last `n` entries. -/
def fullScanLastN (bs : List Nat) (n : Int) : List (List Nat) :=
  (fullScanLines bs).drop ((fullScanLines bs).length - n.toNat)

/-- The content `"a\nb\nc\nd\n"` used by the spec's worked example. -/
def exampleContent : List Nat := [97, 10, 98, 10, 99, 10, 100, 10]

/-- `LensConfig`: the lens descriptor. `priority` is declared `uint` in the
source, hence modelled as `Nat`. -/
structure LensConfig where
  name : String
  title : String
  priority : Nat
  hideTitle : Bool

/-- The `Lens` interface: its config plus the three render operations. -/
structure Lens where
  config : LensConfig
  header : List Artifact → String → String
  body : List Artifact → String → String → String
  callback : List Artifact → String → String → String

/-- The registry map `lensReg`, modelled as a partial lookup function. -/
abbrev Registry := String → Option Lens

/-- The initial, empty registry. -/
def emptyRegistry : Registry := fun _ => none

/-- `RegisterLens`, in state-passing form: returns the new registry together
with the error, if any. On every failing branch the registry is returned
untouched. The checks run in source order: duplicate name, then empty title,
then negative priority (a `uint` comparison in the source). -/
def RegisterLens (reg : Registry) (lens : Lens) : Registry × Option GoError :=
  let config := lens.config
  if (reg config.name).isSome then (reg, some (.duplicateViewer config.name))
  else if config.title = "" then (reg, some .emptyTitle)
  else if config.priority < 0 then (reg, some .negativePriority)
  else (fun m => if m = config.name then some lens else reg m, none)

/-- `GetLens`: look a lens up by name. -/
def GetLens (reg : Registry) (name : String) : Except GoError Lens :=
  match reg name with
  | some lens => Except.ok lens
  | none => Except.error .invalidLensName

/-- `UnregisterLens`: unconditionally delete the map entry. The Go function
returns nothing; deletion of an absent key is a no-op. -/
def UnregisterLens (reg : Registry) (viewerName : String) : Registry :=
  fun m => if m = viewerName then none else reg m

/-- A concrete lens named "x" used to instantiate registry theorems. -/
def lensA : Lens :=
  { config := { name := "x", title := "TitleA", priority := 0, hideTitle := false }
    header := fun _ _ => ""
    body := fun _ _ _ => ""
    callback := fun _ _ _ => "" }

/-- A second concrete lens, also named "x", with a different title. -/
def lensB : Lens :=
  { config := { name := "x", title := "TitleB", priority := 3, hideTitle := true }
    header := fun _ _ => ""
    body := fun _ _ _ => ""
    callback := fun _ _ _ => "" }

theorem lastNLinesLoop_exit (a : Artifact) (n k : Int) (fuel : Nat) (s : LoopState)
    (h : ¬(s.linesInContents < n ∧ s.offset ≠ 0)) :
    lastNLinesLoop a n k (fuel + 1) s = (some (.ok s.contents), []) := by
  simp only [lastNLinesLoop, if_neg h]

theorem lastNLinesLoop_abort (a : Artifact) (n k : Int) (fuel : Nat) (s : LoopState)
    (hg : s.linesInContents < n ∧ s.offset ≠ 0) (rd : Nat × Int) (e : GoError)
    (hstep : loopStep a k s = (rd, .error e)) :
    lastNLinesLoop a n k (fuel + 1) s = (some (.error e), [rd]) := by
  simp only [lastNLinesLoop, if_pos hg, hstep]

theorem lastNLinesLoop_cont (a : Artifact) (n k : Int) (fuel : Nat) (s s2 : LoopState)
    (hg : s.linesInContents < n ∧ s.offset ≠ 0) (rd : Nat × Int)
    (hstep : loopStep a k s = (rd, .ok s2)) :
    lastNLinesLoop a n k (fuel + 1) s
      = ((lastNLinesLoop a n k fuel s2).1, rd :: (lastNLinesLoop a n k fuel s2).2) := by
  simp only [lastNLinesLoop, if_pos hg, hstep]

theorem runWithSize_of_abort (a : Artifact) (n k sz : Int) (e : GoError)
    (rds : List (Nat × Int))
    (h : lastNLinesLoop a n k (sz.toNat + 2) (initState sz k) = (some (.error e), rds)) :
    runWithSize a n k sz = ⟨some (.error e), rds, 1⟩ := by
  simp only [runWithSize, h]

theorem runWithSize_of_ok (a : Artifact) (n k sz : Int) (cs : List Nat)
    (rds : List (Nat × Int))
    (h : lastNLinesLoop a n k (sz.toNat + 2) (initState sz k) = (some (.ok cs), rds)) :
    runWithSize a n k sz = ⟨some (.ok (lastLines (scanLines cs) n)), rds, 1⟩ := by
  simp only [runWithSize, h]

theorem run_of_size_ok (a : Artifact) (n k sz : Int) (hs : a.size = .ok sz) :
    LastNLinesChunkedRun a n k = runWithSize a n k sz := by
  simp only [LastNLinesChunkedRun, hs]

theorem run_of_size_error (a : Artifact) (n k : Int) (e : GoError) (hs : a.size = .error e) :
    LastNLinesChunkedRun a n k
      = ⟨some (.error (.wrapped "error getting artifact size" e)), [], 1⟩ := by
  simp only [LastNLinesChunkedRun, hs]

theorem loopStep_of_err (a : Artifact) (k : Int) (s : LoopState) (e : GoError)
    (he : (a.readAt (readParams k s).1.toNat (readParams k s).2).err = some e)
    (hne : e ≠ .eof) :
    loopStep a k s = (((readParams k s).1.toNat, (readParams k s).2),
      .error (.wrapped "error reading artifact" e)) := by
  simp only [loopStep]
  rw [he]
  simp [hne]

theorem loopStep_of_eof (a : Artifact) (k : Int) (s : LoopState)
    (he : (a.readAt (readParams k s).1.toNat (readParams k s).2).err = some .eof) :
    loopStep a k s = (((readParams k s).1.toNat, (readParams k s).2),
      .ok (advance s (readParams k s).1 (readParams k s).2
            (a.readAt (readParams k s).1.toNat (readParams k s).2))) := by
  simp only [loopStep]
  rw [he]
  simp

/-- Claim C4: for every artifact and every chunk size, `LastNLinesChunked`
with `n = 0` performs no `ReadAt` calls, performs exactly one `Size()` query,
and (whenever the `Size()` query succeeds) returns the empty list of lines
with no error. -/
theorem chunked_tail_n_zero_no_reads (a : Artifact) (k : Int) :
    (LastNLinesChunkedRun a 0 k).reads = [] ∧
    (LastNLinesChunkedRun a 0 k).sizeCalls = 1 ∧
    ∀ sz : Int, a.size = .ok sz → (LastNLinesChunkedRun a 0 k).result = some (.ok []) := by
  cases hs : a.size with
  | error e =>
    rw [run_of_size_error a 0 k e hs]
    exact ⟨rfl, rfl, fun sz h => by cases h⟩
  | ok sz =>
    rw [run_of_size_ok a 0 k sz hs]
    have hguard : ¬((initState sz k).linesInContents < 0 ∧ (initState sz k).offset ≠ 0) := by
      intro h
      exact absurd h.1 (by simp [initState])
    have hloop : lastNLinesLoop a 0 k (sz.toNat + 2) (initState sz k)
        = (some (.ok (initState sz k).contents), []) :=
      lastNLinesLoop_exit a 0 k (sz.toNat + 1) (initState sz k) hguard
    rw [runWithSize_of_ok a 0 k sz _ _ hloop]
    refine ⟨rfl, rfl, fun sz2 _ => ?_⟩
    rfl

/-- Witness for C4 at the one-byte artifact "a" with chunk size 1. -/
theorem chunked_tail_n_zero_no_reads_witness :
    (LastNLinesChunkedRun (contentArtifact [97]) 0 1).result = some (.ok []) :=
  (chunked_tail_n_zero_no_reads (contentArtifact [97]) 1).2.2 1 rfl

/-- Claim C10: for every artifact whose reported size equals the chunk size
and every `n ≥ 1`, `LastNLinesChunked` performs no `ReadAt` calls at all and
returns the empty list of lines with no error: the initial backward-scan
offset is `size - chunkSize = 0`, so the read loop is never entered. -/
theorem chunked_tail_size_eq_chunk_empty (a : Artifact) (n k sz : Int)
    (hs : a.size = .ok sz) (heq : sz = k) (_hn : 1 ≤ n) :
    (LastNLinesChunkedRun a n k).result = some (.ok []) ∧
    (LastNLinesChunkedRun a n k).reads = [] := by
  rw [run_of_size_ok a n k sz hs]
  have hguard : ¬((initState sz k).linesInContents < n ∧ (initState sz k).offset ≠ 0) := by
    intro h
    apply h.2
    show sz - 1 * k = 0
    omega
  have hloop := lastNLinesLoop_exit a n k (sz.toNat + 1) (initState sz k) hguard
  rw [runWithSize_of_ok a n k sz _ _ hloop]
  have h0 : lastLines (scanLines (initState sz k).contents) n = [] := by
    show lastLines (scanLines []) n = []
    have h1 : scanLines ([] : List Nat) = [] := rfl
    simp only [lastLines, h1, List.length_nil, List.drop_nil, ite_self]
  exact ⟨by simp [h0], rfl⟩

/-- Witness for C10 at the two-byte artifact "a\n" with chunk size 2 and
`n = 1`: the full content holds one line, yet nothing is read or returned. -/
theorem chunked_tail_size_eq_chunk_empty_witness :
    (LastNLinesChunkedRun (contentArtifact [97, 10]) 1 2).result = some (.ok []) ∧
    (LastNLinesChunkedRun (contentArtifact [97, 10]) 1 2).reads = [] :=
  chunked_tail_size_eq_chunk_empty (contentArtifact [97, 10]) 1 2 2 rfl rfl (by decide)

/-- Claim C5: error handling of the tail extraction. A failing `Size()`
query aborts the whole operation with the error wrapped as "error getting
artifact size". In any loop iteration (the guard holding), a `ReadAt` that
reports an error other than `io.EOF` aborts the operation with that error
wrapped as "error reading artifact", while a `ReadAt` reporting `io.EOF` is
treated as a normal partial read: its bytes (NUL-trimmed) are prepended to
the accumulated contents and the scan continues with the advanced state. -/
theorem chunked_tail_error_handling (a : Artifact) (n k : Int) (fuel : Nat) (s : LoopState)
    (hg : s.linesInContents < n ∧ s.offset ≠ 0) :
    (∀ e, a.size = .error e →
      LastNLinesChunked a n k = some (.error (.wrapped "error getting artifact size" e))) ∧
    (∀ e, (a.readAt (readParams k s).1.toNat (readParams k s).2).err = some e → e ≠ .eof →
      lastNLinesLoop a n k (fuel + 1) s
        = (some (.error (.wrapped "error reading artifact" e)),
           [((readParams k s).1.toNat, (readParams k s).2)])) ∧
    ((a.readAt (readParams k s).1.toNat (readParams k s).2).err = some .eof →
      (advance s (readParams k s).1 (readParams k s).2
          (a.readAt (readParams k s).1.toNat (readParams k s).2)).contents
        = trimNul (a.readAt (readParams k s).1.toNat (readParams k s).2).buf ++ s.contents ∧
      lastNLinesLoop a n k (fuel + 1) s
        = ((lastNLinesLoop a n k fuel (advance s (readParams k s).1 (readParams k s).2
              (a.readAt (readParams k s).1.toNat (readParams k s).2))).1,
           ((readParams k s).1.toNat, (readParams k s).2)
             :: (lastNLinesLoop a n k fuel (advance s (readParams k s).1 (readParams k s).2
                  (a.readAt (readParams k s).1.toNat (readParams k s).2))).2)) := by
  refine ⟨?_, ?_, ?_⟩
  · intro e hs
    unfold LastNLinesChunked
    rw [run_of_size_error a n k e hs]
  · intro e he hne
    exact lastNLinesLoop_abort a n k fuel s hg _ _ (loopStep_of_err a k s e he hne)
  · intro he
    exact ⟨rfl, lastNLinesLoop_cont a n k fuel s _ hg _ (loopStep_of_eof a k s he)⟩

/-- Witness for C5: one loop iteration against an artifact whose reads fail
with a hard I/O error aborts with the wrapped error after a single read. -/
theorem chunked_tail_error_handling_witness :
    lastNLinesLoop badArtifact 1 2 1 (initState 5 2)
      = (some (.error (.wrapped "error reading artifact" (.ioError "disk failure"))),
         [(3, 3)]) :=
  (chunked_tail_error_handling badArtifact 1 2 0 (initState 5 2) (by decide)).2.1
    (.ioError "disk failure") rfl (by decide)

/-- Claim C6 (amended): for every artifact whose `ReadAt` always fails with
`ErrGzipOffsetRead`, with `n ≥ 1` and the reported size different from the
chunk size, `LastNLinesChunked` propagates the failure wrapped as "error
reading artifact" after performing exactly one `ReadAt` attempt. (When the
reported size equals the chunk size the loop is never entered, no read is
attempted and the empty result is returned without error; see the
counterexample.) -/
theorem chunked_tail_unsupported_read_aborts (a : Artifact) (n k sz : Int)
    (hn : 1 ≤ n) (hs : a.size = .ok sz) (hne : sz ≠ k)
    (hfail : ∀ bufLen off, (a.readAt bufLen off).err = some .gzipOffsetRead) :
    (LastNLinesChunkedRun a n k).result
      = some (.error (.wrapped "error reading artifact" .gzipOffsetRead)) ∧
    (LastNLinesChunkedRun a n k).reads.length = 1 := by
  rw [run_of_size_ok a n k sz hs]
  have hguard : (initState sz k).linesInContents < n ∧ (initState sz k).offset ≠ 0 := by
    refine ⟨?_, ?_⟩
    · show (0 : Int) < n
      omega
    · show sz - 1 * k ≠ 0
      omega
  have hstep := loopStep_of_err a k (initState sz k) .gzipOffsetRead
    (hfail _ _) (by decide)
  have hloop := lastNLinesLoop_abort a n k (sz.toNat + 1) (initState sz k) hguard _ _ hstep
  rw [runWithSize_of_abort a n k sz _ _ hloop]
  exact ⟨rfl, rfl⟩

/-- Witness for C6 at an always-failing artifact of reported size 5 with
chunk size 1 and `n = 1`. -/
theorem chunked_tail_unsupported_read_aborts_witness :
    (LastNLinesChunkedRun (gzipArtifact 5) 1 1).result
      = some (.error (.wrapped "error reading artifact" .gzipOffsetRead)) ∧
    (LastNLinesChunkedRun (gzipArtifact 5) 1 1).reads.length = 1 :=
  chunked_tail_unsupported_read_aborts (gzipArtifact 5) 1 1 5 (by decide) rfl
    (by decide) (fun _ _ => rfl)

/-- Counterexample to C6 as stated: `LastNLines` with `n = 1` uses chunk
size 301; against an always-failing artifact whose reported size is exactly
301, the initial offset is 0, the loop is never entered, no `ReadAt` is
attempted, and the empty line list is returned with no error — the failure
is not propagated. -/
theorem chunked_tail_unsupported_read_size_eq_chunk_ok :
    LastNLines (gzipArtifact 301) 1 = some (.ok []) ∧
    (LastNLinesChunkedRun (gzipArtifact 301) 1 301).reads = [] := by
  decide

/-- Claim C1 is false on the code: for the artifact with content
`"a\nb\nc\nd\n"`, `n = 2` and chunk size 1, `LastNLinesChunked` returns the
lines `["d", ""]`, while the full linear scan's last two lines are
`["c", "d"]`. (The second read re-reads the byte at offset
`size - chunkSize`, duplicating the final newline, and the loop stops as
soon as `n` newlines are seen even though the buffer starts mid-content.) -/
theorem chunked_tail_differs_from_full_scan :
    LastNLinesChunked (contentArtifact exampleContent) 2 1 = some (.ok [[100], []]) ∧
    fullScanLastN exampleContent 2 = [[99], [100]] ∧
    ([[100], []] : List (List Nat)) ≠ [[99], [100]] := by
  decide

/-- Claim C2 is false on the code: for the artifact with content
`"a\nb\nc\nd\n"` (length 8) and `n = 2`, chunk size 3 (which is ≥ 1 and
smaller than the content length) yields `["", "d"]`, not `["c", "d"]`: the
single chunk read covers only `"\nd\n"`, which already contains two
newlines, so the scan stops with a truncated first line. -/
theorem chunked_tail_example_small_chunk_wrong :
    LastNLinesChunked (contentArtifact exampleContent) 2 3 = some (.ok [[], [100]]) ∧
    ([[], [100]] : List (List Nat)) ≠ [[99], [100]] := by
  decide

/-- Claim C3 is false on the code: the artifact with content `"a\nb"` has
two lines, fewer than `n = 5`, yet `LastNLinesChunked` with chunk size 1
returns `["a", "bb"]` instead of all its lines `["a", "b"]`: after the
first (EOF-shortened) read, the next read window overlaps the previous one
by one byte, so the byte at offset `size - chunkSize` is accumulated
twice. -/
theorem chunked_tail_fewer_lines_duplicated_byte :
    LastNLinesChunked (contentArtifact [97, 10, 98]) 5 1 = some (.ok [[97], [98, 98]]) ∧
    fullScanLines [97, 10, 98] = [[97], [98]] ∧
    ([[97], [98, 98]] : List (List Nat)) ≠ [[97], [98]] := by
  decide

theorem registerLens_success (reg : Registry) (lens : Lens)
    (h : (RegisterLens reg lens).2 = none) :
    RegisterLens reg lens
      = (fun m => if m = lens.config.name then some lens else reg m, none) := by
  by_cases h1 : (reg lens.config.name).isSome
  · exfalso
    revert h
    simp [RegisterLens, h1]
  · by_cases h2 : lens.config.title = ""
    · exfalso
      revert h
      simp [RegisterLens, h1, h2]
    · simp [RegisterLens, h1, h2]

/-- Claim C7: `RegisterLens` is atomic on failure. After a successful
registration of a lens, registering any lens with the same name fails with
the duplicate-registration error and leaves the registry unchanged, and the
first lens is still retrieved unchanged by `GetLens`. Registering a lens
with an empty title (whose name is not yet taken) fails with the
empty-title error and leaves the registry unchanged, so `GetLens` on that
name still fails. In general, whenever `RegisterLens` returns an error the
registry is not mutated. -/
theorem registerLens_atomic_on_failure (reg : Registry) (lens lens2 : Lens) :
    ((RegisterLens reg lens).2 = none → lens2.config.name = lens.config.name →
      RegisterLens (RegisterLens reg lens).1 lens2
        = ((RegisterLens reg lens).1, some (.duplicateViewer lens2.config.name)) ∧
      GetLens (RegisterLens reg lens).1 lens.config.name = .ok lens) ∧
    (reg lens.config.name = none → lens.config.title = "" →
      RegisterLens reg lens = (reg, some .emptyTitle) ∧
      GetLens reg lens.config.name = .error .invalidLensName) ∧
    (∀ e, (RegisterLens reg lens).2 = some e → (RegisterLens reg lens).1 = reg) := by
  refine ⟨?_, ?_, ?_⟩
  · intro hsucc hname
    rw [registerLens_success reg lens hsucc]
    constructor
    · show RegisterLens (fun m => if m = lens.config.name then some lens else reg m) lens2
        = (_, some (.duplicateViewer lens2.config.name))
      simp [RegisterLens, hname]
    · show GetLens (fun m => if m = lens.config.name then some lens else reg m)
        lens.config.name = .ok lens
      simp [GetLens]
  · intro h1 h2
    refine ⟨?_, ?_⟩
    · simp [RegisterLens, h1, h2]
    · simp [GetLens, h1]
  · intro e he
    by_cases h1 : (reg lens.config.name).isSome
    · simp [RegisterLens, h1]
    · by_cases h2 : lens.config.title = ""
      · simp [RegisterLens, h1, h2]
      · have hx : (RegisterLens reg lens).2 = none := by simp [RegisterLens, h1, h2]
        rw [hx] at he
        simp at he

/-- Witness for C7: registering `lensB` after `lensA` (both named "x") in
the empty registry fails with the duplicate error, does not change the
registry, and `lensA` is still retrieved by lookup. -/
theorem registerLens_atomic_on_failure_witness :
    RegisterLens (RegisterLens emptyRegistry lensA).1 lensB
      = ((RegisterLens emptyRegistry lensA).1, some (.duplicateViewer "x")) ∧
    GetLens (RegisterLens emptyRegistry lensA).1 "x" = .ok lensA :=
  (registerLens_atomic_on_failure emptyRegistry lensA lensB).1 rfl rfl

/-- Claim C8: `RegisterLens` can never return the negative-priority error,
because the `Priority` field is unsigned (`Nat` here, `uint` in the source),
so the `Priority < 0` branch is unreachable. -/
theorem registerLens_negative_priority_unreachable (reg : Registry) (lens : Lens) :
    (RegisterLens reg lens).2 ≠ some .negativePriority := by
  by_cases h1 : (reg lens.config.name).isSome
  · simp [RegisterLens, h1]
  · by_cases h2 : lens.config.title = ""
    · simp [RegisterLens, h1, h2]
    · simp [RegisterLens, h1, h2]

/-- Witness for C8 at the empty registry and a concrete lens. -/
theorem registerLens_negative_priority_unreachable_witness :
    (RegisterLens emptyRegistry lensA).2 ≠ some .negativePriority :=
  registerLens_negative_priority_unreachable emptyRegistry lensA

/-- Claim C9: `UnregisterLens` on a name that is not registered succeeds
silently (it returns only the registry, there is no error path), a
subsequent `GetLens` for that name still fails with the invalid-lens-name
error, no other entry is changed, and in fact the registry is left
identical. -/
theorem unregisterLens_absent_silent (reg : Registry) (name : String)
    (h : reg name = none) :
    GetLens (UnregisterLens reg name) name = .error .invalidLensName ∧
    (∀ m, m ≠ name → UnregisterLens reg name m = reg m) ∧
    UnregisterLens reg name = reg := by
  refine ⟨?_, ?_, ?_⟩
  · simp [GetLens, UnregisterLens]
  · intro m hm
    simp [UnregisterLens, hm]
  · funext m
    by_cases hm : m = name
    · simp [UnregisterLens, hm, h]
    · simp [UnregisterLens, hm]

/-- Witness for C9: unregistering the never-registered name "y" from the
empty registry leaves lookup failing. -/
theorem unregisterLens_absent_silent_witness :
    GetLens (UnregisterLens emptyRegistry "y") "y" = .error .invalidLensName :=
  (unregisterLens_absent_silent emptyRegistry "y" rfl).1

end Spyglass
